import Mathlib

/-
Shallow embedding of src/refactor_solid.py: a toy checkout workflow with an
Order record, payment-processor and notifier capabilities, and a
CheckoutService that orchestrates payment then notification.

Modelling choices:
- Python mutates the Order in place; here every capability call returns the
  order state it leaves behind, in both the normal-return and the raising
  case (`PyResult` carries the order alongside the result or the exception).
- `total_price` is a Python float; the repository only stores and logs it
  (never computes with it), so it is modelled as a rational number.
- Logging writes no observable state and is omitted.
- `run_checkout` additionally returns the number of times the injected
  notifier's `send` was invoked, so that invocation-count properties can be
  stated.
-/

/-- Order record of src/refactor_solid.py lines 13-24: customer name, total
price, and a status that defaults to "open". -/
structure Order where
  customer_name : String
  total_price : Rat
  status : String := "open"
deriving DecidableEq, Repr

/-- Exception value, standing for any Python exception. -/
structure PyExn where
  msg : String
deriving DecidableEq, Repr

/-- Outcome of a Python call on an in-place order: either a normal return
with a value, or a raised exception; in both cases the order state the call
leaves behind is carried along. -/
inductive PyResult (α : Type) where
  | ok : α → Order → PyResult α
  | exn : PyExn → Order → PyResult α
deriving DecidableEq, Repr

/-- Order state a call leaves behind, whether it returned or raised. -/
def PyResult.orderAfter {α : Type} : PyResult α → Order
  | PyResult.ok _ o => o
  | PyResult.exn _ o => o

/-- Type of an injected payment processor's `process` method
(IPaymentProcessor.process): it may mutate the order and may raise. -/
def PaymentProcess : Type := Order → PyResult Bool

/-- Type of an injected notifier's `send` method
(INotificationService.send): it may mutate the order and may raise. -/
def NotifierSend : Type := Order → PyResult Unit

/-- CreditCardProcessor.process (lines 80-97): logs, always returns True,
leaves the order untouched; its try body cannot raise. -/
def CreditCardProcessor.process (order : Order) : PyResult Bool :=
  PyResult.ok true order

/-- QrisProcessor.process (lines 188-205): logs, always returns True,
leaves the order untouched; its try body cannot raise. -/
def QrisProcessor.process (order : Order) : PyResult Bool :=
  PyResult.ok true order

/-- EmailNotifier.send (lines 107-116): logs only, returns None, leaves the
order untouched. -/
def EmailNotifier.send (order : Order) : PyResult Unit :=
  PyResult.ok () order

/-- CheckoutService.run_checkout (lines 142-177). The whole body sits in a
try/except that returns False on any exception. On a successful payment the
order's status is set to "paid" before `send` is invoked. The third
component counts invocations of the injected `send`. -/
def run_checkout (payment_process : PaymentProcess) (notifier_send : NotifierSend)
    (order : Order) : Bool × Order × Nat :=
  match payment_process order with
  | PyResult.exn _ o => (false, o, 0)
  | PyResult.ok payment_success o =>
    if payment_success then
      let paid : Order := { o with status := "paid" }
      match notifier_send paid with
      | PyResult.exn _ o2 => (false, o2, 1)
      | PyResult.ok _ o2 => (true, o2, 1)
    else
      (false, o, 0)

/-- Order "Andi" 500000 constructed in main (line 218). -/
def andi_order : Order := { customer_name := "Andi", total_price := 500000 }

/-- Order "Budi" 100000 constructed in main (line 219). -/
def budi_order : Order := { customer_name := "Budi", total_price := 100000 }

/-- A notifier whose `send` raises without touching the order. -/
def raisingSend : NotifierSend :=
  fun o => PyResult.exn { msg := "smtp down" } o

/-- A processor whose `process` mutates the order's status and then
returns False. -/
def mutatingFailingProcess : PaymentProcess :=
  fun o => PyResult.ok false { o with status := "mangled" }

/-- A processor whose `process` raises without touching the order. -/
def raisingProcess : PaymentProcess :=
  fun o => PyResult.exn { msg := "gateway down" } o

/-- A notifier that behaves like EmailNotifier on orders whose status is
"paid" and raises on every other order. -/
def paidOnlySend : NotifierSend :=
  fun o =>
    if o.status = "paid" then EmailNotifier.send o
    else PyResult.exn { msg := "not paid" } o

/-- Claim C1, as frozen, is false: with a notifier whose `send` raises, a
processor returning True still leads `run_checkout` to return False (the
except branch), not True. Concrete instance: CreditCardProcessor with a
raising notifier on the Andi order. -/
theorem claim_C1_counterexample :
    CreditCardProcessor.process andi_order = PyResult.ok true andi_order ∧
    (run_checkout CreditCardProcessor.process raisingSend andi_order).1 = false :=
  ⟨rfl, rfl⟩

/-- Claim C1 (amended): if the processor's `process(order)` returns True,
then `run_checkout` sets the order's status to "paid" and invokes the
notifier's `send` exactly once on that updated order; it returns True when
`send` returns normally, and False when `send` raises. -/
theorem claim_C1_amended (pp : PaymentProcess) (ns : NotifierSend) (o o₁ : Order)
    (h : pp o = PyResult.ok true o₁) :
    ({ o₁ with status := "paid" } : Order).status = "paid" ∧
    (run_checkout pp ns o).2.2 = 1 ∧
    (∀ u o₂, ns { o₁ with status := "paid" } = PyResult.ok u o₂ →
      run_checkout pp ns o = (true, o₂, 1)) ∧
    (∀ e o₂, ns { o₁ with status := "paid" } = PyResult.exn e o₂ →
      run_checkout pp ns o = (false, o₂, 1)) := by
  refine ⟨rfl, ?_, ?_, ?_⟩
  · unfold run_checkout
    rw [h]
    cases hn : ns { o₁ with status := "paid" } <;> simp [hn]
  · intro u o₂ hn
    unfold run_checkout
    rw [h]
    simp [hn]
  · intro e o₂ hn
    unfold run_checkout
    rw [h]
    simp [hn]

/-- Witness for claim C1 (amended): the Budi order through
CreditCardProcessor and EmailNotifier ends paid with result True. -/
theorem claim_C1_amended_witness :
    run_checkout CreditCardProcessor.process EmailNotifier.send budi_order =
      (true, { budi_order with status := "paid" }, 1) :=
  (claim_C1_amended CreditCardProcessor.process EmailNotifier.send budi_order
      budi_order rfl).2.2.1 () { budi_order with status := "paid" } rfl

/-- Claim C2, as frozen, is false: a processor that mutates the order
before returning False leaves the order changed after `run_checkout`
(`run_checkout` itself adds no mutation, but the injected `process` may). -/
theorem claim_C2_counterexample :
    mutatingFailingProcess budi_order =
      PyResult.ok false { budi_order with status := "mangled" } ∧
    (run_checkout mutatingFailingProcess EmailNotifier.send budi_order).1 = false ∧
    (run_checkout mutatingFailingProcess EmailNotifier.send budi_order).2.1 ≠ budi_order := by
  refine ⟨rfl, rfl, ?_⟩
  decide

/-- Claim C2 (amended): if the processor's `process(order)` returns False,
then `run_checkout` returns False, never invokes the notifier, and performs
no mutation of its own: the final order is exactly the one `process` left
behind (so the order is unchanged whenever the processor does not mutate
it). -/
theorem claim_C2_amended (pp : PaymentProcess) (ns : NotifierSend) (o o₁ : Order)
    (h : pp o = PyResult.ok false o₁) :
    run_checkout pp ns o = (false, o₁, 0) := by
  unfold run_checkout
  rw [h]
  simp

/-- Witness for claim C2 (amended) at a concrete failing processor. -/
theorem claim_C2_amended_witness :
    run_checkout mutatingFailingProcess EmailNotifier.send andi_order =
      (false, { andi_order with status := "mangled" }, 0) :=
  claim_C2_amended mutatingFailingProcess EmailNotifier.send andi_order
    { andi_order with status := "mangled" } rfl

/-- Claim C3: during one `run_checkout` call the notifier's `send` is
invoked exactly once when `process(order)` returned True, and never
otherwise (in particular never more than once). -/
theorem claim_C3 (pp : PaymentProcess) (ns : NotifierSend) (o : Order) :
    ((run_checkout pp ns o).2.2 = 1 ↔ ∃ o₁, pp o = PyResult.ok true o₁) ∧
    (run_checkout pp ns o).2.2 ≤ 1 := by
  unfold run_checkout
  cases hp : pp o with
  | exn e o₁ => simp [hp]
  | ok b o₁ =>
    cases b with
    | false => simp [hp]
    | true =>
      cases hn : ns { o₁ with status := "paid" } <;> simp [hn]

/-- Claim C4: both concrete processor variants return True on every order;
neither has a failure path. -/
theorem claim_C4 (o : Order) :
    (∃ o₁, CreditCardProcessor.process o = PyResult.ok true o₁) ∧
    (∃ o₂, QrisProcessor.process o = PyResult.ok true o₂) :=
  ⟨⟨o, rfl⟩, ⟨o, rfl⟩⟩

/-- Claim C5: neither concrete processor mutates the order it is given:
the order state after the call is the order passed in, every field
included. -/
theorem claim_C5 (o : Order) :
    (CreditCardProcessor.process o).orderAfter = o ∧
    (QrisProcessor.process o).orderAfter = o :=
  ⟨rfl, rfl⟩

/-- Claim C6: CheckoutService behaves identically with either concrete
processor injected: same boolean result, same final order, same number of
notifications, for every order and notifier. -/
theorem claim_C6 (ns : NotifierSend) (o : Order) :
    run_checkout CreditCardProcessor.process ns o =
      run_checkout QrisProcessor.process ns o :=
  rfl

/-- Claim C7: an Order's status defaults to "open" at construction; the
concrete processors and notifier never touch the status; and the only
transition the system performs is to "paid", done by `run_checkout` on
payment success. -/
theorem claim_C7 :
    (∀ n p, ({ customer_name := n, total_price := p } : Order).status = "open") ∧
    (∀ o, (CreditCardProcessor.process o).orderAfter.status = o.status) ∧
    (∀ o, (QrisProcessor.process o).orderAfter.status = o.status) ∧
    (∀ o, (EmailNotifier.send o).orderAfter.status = o.status) ∧
    (∀ o, run_checkout CreditCardProcessor.process EmailNotifier.send o =
      (true, { o with status := "paid" }, 1)) ∧
    (∀ o, run_checkout QrisProcessor.process EmailNotifier.send o =
      (true, { o with status := "paid" }, 1)) :=
  ⟨fun _ _ => rfl, fun _ => rfl, fun _ => rfl, fun _ => rfl, fun _ => rfl, fun _ => rfl⟩

/-- Claim C8: `run_checkout` propagates no exception: a raise from the
injected `process` or `send` is caught by the surrounding try/except and
converted into a False return (the model of `run_checkout` is a total
function into Bool because the except clause covers the whole body). -/
theorem claim_C8 (pp : PaymentProcess) (ns : NotifierSend) (o : Order) :
    (∀ e o₁, pp o = PyResult.exn e o₁ → run_checkout pp ns o = (false, o₁, 0)) ∧
    (∀ o₁ e o₂, pp o = PyResult.ok true o₁ →
      ns { o₁ with status := "paid" } = PyResult.exn e o₂ →
      run_checkout pp ns o = (false, o₂, 1)) := by
  constructor
  · intro e o₁ h
    unfold run_checkout
    rw [h]
  · intro o₁ e o₂ h hn
    unfold run_checkout
    rw [h]
    simp [hn]

/-- Witness for claim C8: a raising processor and a raising notifier both
yield a caught fault and a False result. -/
theorem claim_C8_witness :
    run_checkout raisingProcess EmailNotifier.send andi_order = (false, andi_order, 0) ∧
    run_checkout CreditCardProcessor.process raisingSend budi_order =
      (false, { budi_order with status := "paid" }, 1) :=
  ⟨(claim_C8 raisingProcess EmailNotifier.send andi_order).1
      { msg := "gateway down" } andi_order rfl,
   (claim_C8 CreditCardProcessor.process raisingSend budi_order).2 budi_order
      { msg := "smtp down" } { budi_order with status := "paid" } rfl rfl⟩

/-- Claim C9: the notifier is only ever invoked on an order whose status is
already "paid": two notifiers that agree on all paid-status orders give
`run_checkout` identical behaviour, whatever they do elsewhere. -/
theorem claim_C9 (pp : PaymentProcess) (o : Order) (ns₁ ns₂ : NotifierSend)
    (h : ∀ x : Order, x.status = "paid" → ns₁ x = ns₂ x) :
    run_checkout pp ns₁ o = run_checkout pp ns₂ o := by
  unfold run_checkout
  cases hp : pp o with
  | exn e o₁ => rfl
  | ok b o₁ =>
    cases b with
    | false => rfl
    | true =>
      show (match ns₁ { o₁ with status := "paid" } with
            | PyResult.exn _ o2 => (false, o2, 1)
            | PyResult.ok _ o2 => (true, o2, 1)) =
          (match ns₂ { o₁ with status := "paid" } with
            | PyResult.exn _ o2 => (false, o2, 1)
            | PyResult.ok _ o2 => (true, o2, 1))
      rw [h { o₁ with status := "paid" } rfl]

/-- Witness for claim C9: a notifier that raises on every non-paid order is
indistinguishable from EmailNotifier inside `run_checkout`. -/
theorem claim_C9_witness :
    run_checkout CreditCardProcessor.process EmailNotifier.send andi_order =
      run_checkout CreditCardProcessor.process paidOnlySend andi_order :=
  claim_C9 CreditCardProcessor.process andi_order EmailNotifier.send paidOnlySend
    (fun x hx => by simp [paidOnlySend, hx])

/-- Claim C10: when `process(order)` returns True and the notifier's `send`
then raises, `run_checkout` returns False although the order's status has
already been set to "paid" — a False return does not imply the order was
left unchanged. -/
theorem claim_C10 (pp : PaymentProcess) (ns : NotifierSend) (o o₁ : Order) (e : PyExn)
    (h : pp o = PyResult.ok true o₁)
    (hn : ns { o₁ with status := "paid" } =
      PyResult.exn e { o₁ with status := "paid" }) :
    (run_checkout pp ns o).1 = false ∧
    (run_checkout pp ns o).2.1.status = "paid" ∧
    (run_checkout pp ns o).2.2 = 1 := by
  unfold run_checkout
  rw [h]
  simp [hn]

/-- Witness for claim C10: the Andi order, a succeeding processor and a
raising notifier: result False, status "paid", one send invocation. -/
theorem claim_C10_witness :
    (run_checkout CreditCardProcessor.process raisingSend andi_order).1 = false ∧
    (run_checkout CreditCardProcessor.process raisingSend andi_order).2.1.status = "paid" ∧
    (run_checkout CreditCardProcessor.process raisingSend andi_order).2.2 = 1 :=
  claim_C10 CreditCardProcessor.process raisingSend andi_order andi_order
    { msg := "smtp down" } rfl rfl
